import Mathlib

/-!
Verification of the RehabRight real-time exercise-analysis core.

This file gives a shallow embedding of the analysis pipeline:
* the Angle Calculator (`src/lib/pose/angles.ts`): joint-angle geometry and
  exponential smoothing;
* the Exercise Rules Engine (`src/lib/pose/rules.ts`): the per-angle scoring
  curve `evaluateAngle`;
* the session store's feedback sink (`src/lib/store.ts`): `addFeedback`;
* the repetition-detection state machine (`RepDetector`).

JavaScript numbers are modelled as elements of a linear ordered field
(instantiated at `ℚ` for executable runs and at `ℝ` where the code uses
transcendental functions); timestamps (`Date.now()` milliseconds) are `ℤ`.
Class instances become explicit state records threaded through the functions;
the mutating methods become state transformers.
-/

/-- One pose landmark: normalized position plus optional visibility,
from `PoseLandmark` in `src/lib/pose/mediapipe` (re-exported part of
`angles.ts`). -/
structure Landmark (α : Type) where
  x : α
  y : α
  z : α
  visibility : Option α
deriving DecidableEq, Repr

/-- The six per-frame joint angles, from `JointAngles` in
`src/lib/pose/angles.ts`. -/
structure JointAngles (α : Type) where
  trunkAngle : α
  hipAngle : α
  kneeAngle : α
  shoulderAngle : α
  elbowAngle : α
  ankleAngle : α
deriving DecidableEq, Repr

/-- The all-zero sentinel returned for short landmark sequences. -/
def zeroAngles (α : Type) [Zero α] : JointAngles α :=
  { trunkAngle := 0, hipAngle := 0, kneeAngle := 0,
    shoulderAngle := 0, elbowAngle := 0, ankleAngle := 0 }

/-! ## Exercise Rules Engine (`src/lib/pose/rules.ts`) -/

/-- The `thresholds` record of an `ExerciseRule`. -/
structure Thresholds (α : Type) where
  min : α
  max : α
  optimal : α
deriving DecidableEq, Repr

/-- An `ExerciseRule` from `rules.ts` (display metadata retained). -/
structure ExerciseRule (α : Type) where
  name : String
  description : String
  thresholds : Thresholds α
  weight : α
deriving DecidableEq, Repr

/-- `ExerciseRules.evaluateAngle` from `rules.ts` lines 218-242.
Decimal constants of the source are written as exact fractions
(`0.2 = 2/10`, `0.5 = 1/2`, ...). -/
def evaluateAngle {α : Type} [LinearOrderedField α] (angle : α) (rule : ExerciseRule α) : α :=
  let mn := rule.thresholds.min
  let mx := rule.thresholds.max
  let optimal := rule.thresholds.optimal
  if mn ≤ angle ∧ angle ≤ mx then
    -- Calculate how close to optimal
    let range := mx - mn
    let distanceFromOptimal := |angle - optimal|
    let maxDistance := range / 2
    if distanceFromOptimal ≤ maxDistance * (2 / 10) then 1
    else if distanceFromOptimal ≤ maxDistance * (4 / 10) then 9 / 10
    else if distanceFromOptimal ≤ maxDistance * (6 / 10) then 8 / 10
    else if distanceFromOptimal ≤ maxDistance * (8 / 10) then 7 / 10
    else 6 / 10
  else if angle < mn then
    max 0 (1 / 2 - (mn - angle) / 10)
  else
    max 0 (1 / 2 - (angle - mx) / 10)

/-- The scoring curve as the specification words it (§4.2): inside `[min,max]`
a step function of the distance from `optimal` relative to half the range;
outside, `max 0 (0.5 - d/10)` where `d` is the number of degrees past the
nearer boundary. -/
def specScoreCurve {α : Type} [LinearOrderedField α] (angle : α) (rule : ExerciseRule α) : α :=
  let mn := rule.thresholds.min
  let mx := rule.thresholds.max
  let optimal := rule.thresholds.optimal
  if mn ≤ angle ∧ angle ≤ mx then
    let halfRange := (mx - mn) / 2
    let d := |angle - optimal|
    if d ≤ halfRange * (2 / 10) then 1
    else if d ≤ halfRange * (4 / 10) then 9 / 10
    else if d ≤ halfRange * (6 / 10) then 8 / 10
    else if d ≤ halfRange * (8 / 10) then 7 / 10
    else 6 / 10
  else
    let dNearer := min |angle - mn| |angle - mx|
    max 0 (1 / 2 - dNearer / 10)

/-- The squat hip-depth rule from `rules.ts` (`squatRules.hipAngle`). -/
def squatHipRule : ExerciseRule ℚ :=
  { name := "Hip Depth", description := "Go deep enough to break parallel",
    thresholds := { min := 50, max := 130, optimal := 90 }, weight := 4 / 10 }

/-- The squat trunk rule from `rules.ts` (`squatRules.trunkAngle`). -/
def squatTrunkRule : ExerciseRule ℚ :=
  { name := "Trunk Upright", description := "Keep your chest up and back straight",
    thresholds := { min := 0, max := 25, optimal := 10 }, weight := 3 / 10 }

/-- The squat knee rule from `rules.ts` (`squatRules.kneeAngle`). -/
def squatKneeRule : ExerciseRule ℚ :=
  { name := "Knee Position", description := "Keep knees in line with toes",
    thresholds := { min := 60, max := 150, optimal := 110 }, weight := 3 / 10 }

/-! ## Session feedback sink (`src/lib/store.ts`) -/

/-- Feedback severity, from the `type` union in `store.ts`. -/
inductive FeedbackType where
  | info
  | warning
  | error
deriving DecidableEq, Repr

/-- A stored feedback entry, from the `Feedback` interface in `store.ts`. -/
structure Feedback where
  repNumber : ℤ
  message : String
  type : FeedbackType
  priority : ℤ
deriving DecidableEq, Repr

/-- The per-session slice of the app state touched by `addFeedback`,
from the `ExerciseSession` interface in `store.ts`. -/
structure ExerciseSession where
  exercise : String
  startTime : ℤ
  endTime : Option ℤ
  repCount : ℤ
  averageScore : ℚ
  lastRepScore : ℚ
  flags : List String
  feedback : List Feedback
deriving DecidableEq, Repr

/-- `startSession` from `store.ts`: fresh session with empty feedback. -/
def startSession (exercise : String) (now : ℤ) : Option ExerciseSession :=
  some { exercise := exercise, startTime := now, endTime := none, repCount := 0,
         averageScore := 0, lastRepScore := 0, flags := [], feedback := [] }

/-- The target rep number used by `addFeedback`:
`repNumber || state.currentSession.repCount` — JavaScript `||` falls back to
the session's rep count when `repNumber` is absent or `0` (falsy). -/
def targetRep (repNumber : Option ℤ) (sessionRepCount : ℤ) : ℤ :=
  match repNumber with
  | some n => if n = 0 then sessionRepCount else n
  | none => sessionRepCount

/-- The duplicate check of `addFeedback`: is there already an entry with this
message and target rep number? -/
def feedbackDup (fb : Feedback) (message : String) (target : ℤ) : Bool :=
  fb.message == message && fb.repNumber == target

/-- The body of `addFeedback` from `store.ts` lines 99-126, acting on an
active session (the store returns the state unchanged when
`currentSession` is `null`). -/
def addFeedbackSession (message : String) (ty : FeedbackType) (priority : ℤ)
    (repNumber : Option ℤ) (session : ExerciseSession) : ExerciseSession :=
  let target := targetRep repNumber session.repCount
  if session.feedback.any (fun fb => feedbackDup fb message target) then
    session
  else
    { session with
        feedback := session.feedback ++
          [{ repNumber := target, message := message, type := ty, priority := priority }] }

/-- `addFeedback` from `store.ts`: no-op without an active session. -/
def addFeedback (message : String) (ty : FeedbackType) (priority : ℤ)
    (repNumber : Option ℤ) (cur : Option ExerciseSession) : Option ExerciseSession :=
  cur.map (addFeedbackSession message ty priority repNumber)

/-! ## Theorems for the rules engine (C3) -/

/-- C3: for every rule with `min ≤ max` and every angle, `evaluateAngle`
computes exactly the curve the specification describes (tiered inside the
range by distance from optimal relative to half the range, and
`max 0 (0.5 - d/10)` past the nearer boundary outside it); in particular an
angle exactly at `optimal` (when `optimal` lies in `[min, max]`) scores `1.0`
and an angle 10 degrees beyond `max` scores `0`. -/
theorem evaluateAngle_matches_spec_curve {α : Type} [LinearOrderedField α]
    (rule : ExerciseRule α) (a : α)
    (hr : rule.thresholds.min ≤ rule.thresholds.max) :
    evaluateAngle a rule = specScoreCurve a rule ∧
    (rule.thresholds.min ≤ rule.thresholds.optimal →
      rule.thresholds.optimal ≤ rule.thresholds.max →
      evaluateAngle rule.thresholds.optimal rule = 1) ∧
    evaluateAngle (rule.thresholds.max + 10) rule = 0 := by
  obtain ⟨nm, ds, ⟨mn, mx, opt⟩, w⟩ := rule
  simp only [evaluateAngle, specScoreCurve] at *
  refine ⟨?_, ?_, ?_⟩
  · by_cases hin : mn ≤ a ∧ a ≤ mx
    · simp [hin]
    · have h1 : ¬ (mn ≤ a ∧ a ≤ mx) := hin
      simp only [if_neg h1]
      by_cases hlt : a < mn
      · have habs1 : |a - mn| = mn - a := by
          rw [abs_of_nonpos (by linarith)]; ring
        have habs2 : |a - mx| = mx - a := by
          rw [abs_of_nonpos (by linarith)]; ring
        have hmin : min |a - mn| |a - mx| = mn - a := by
          rw [habs1, habs2, min_eq_left (by linarith)]
        simp [hlt, hmin]
      · have hgt : mx < a := by
          rcases not_and_or.mp h1 with h | h
          · exact absurd (le_of_not_lt hlt) h
          · exact lt_of_not_le h
        have habs1 : |a - mn| = a - mn := by
          rw [abs_of_nonneg (by linarith)]
        have habs2 : |a - mx| = a - mx := by
          rw [abs_of_nonneg (by linarith)]
        have hmin : min |a - mn| |a - mx| = a - mx := by
          rw [habs1, habs2, min_eq_right (by linarith)]
        simp [hlt, hmin]
  · intro h1 h2
    have hin : mn ≤ opt ∧ opt ≤ mx := ⟨h1, h2⟩
    have hz : |opt - opt| = 0 := by simp
    have hnn : (0 : α) ≤ (mx - mn) / 2 * (2 / 10) := by
      have : (0 : α) ≤ mx - mn := by linarith
      positivity
    simp only [if_pos hin, hz]
    rw [if_pos hnn]
  · have hout : ¬ (mn ≤ mx + 10 ∧ mx + 10 ≤ mx) := by
      intro hc
      linarith [hc.2]
    have hnlt : ¬ (mx + 10 < mn) := by linarith
    simp only [if_neg hout, if_neg hnlt]
    have : (1 : α) / 2 - (mx + 10 - mx) / 10 = -(1 / 2) := by ring
    rw [this, max_eq_left (by linarith)]

/-- Witness for C3 at the squat hip rule: the angle 70° (inside the range),
the optimal 90°, and 140° (10° past `max`). -/
theorem evaluateAngle_matches_spec_curve_witness :
    evaluateAngle (70 : ℚ) squatHipRule = specScoreCurve 70 squatHipRule ∧
    (squatHipRule.thresholds.min ≤ squatHipRule.thresholds.optimal →
      squatHipRule.thresholds.optimal ≤ squatHipRule.thresholds.max →
      evaluateAngle squatHipRule.thresholds.optimal squatHipRule = 1) ∧
    evaluateAngle (squatHipRule.thresholds.max + 10) squatHipRule = 0 :=
  evaluateAngle_matches_spec_curve squatHipRule 70 (by norm_num [squatHipRule])

/-! ## Angle Calculator (`src/lib/pose/angles.ts`)

The geometry uses `Real.sqrt` and `Real.arccos`, so these definitions live in
`ℝ` and are noncomputable; the smoothing filter itself is defined over any
field so it can also be evaluated exactly on `ℚ`. -/

/-- `AngleCalculator.isLandmarkVisible`: defined visibility strictly above
`0.5`. -/
def isLandmarkVisible (l : Landmark ℝ) : Prop :=
  match l.visibility with
  | some v => 1 / 2 < v
  | none => False

/-- JavaScript array indexing `landmarks[i]`; out-of-range indices yield an
absent (invisible) landmark, which every angle function maps to the 0
sentinel. The source only indexes after its own length check. -/
def landmarkAt (lm : List (Landmark ℝ)) (i : ℕ) : Landmark ℝ :=
  lm.getD i { x := 0, y := 0, z := 0, visibility := none }

section AngleGeometry

open scoped Classical

/-- `AngleCalculator.calculateAngleBetweenVectors` from `angles.ts` lines
242-261: `acos` of the clamped normalized dot product, in degrees, clamped to
`[0, 180]`. -/
noncomputable def calculateAngleBetweenVectors (v1x v1y v2x v2y : ℝ) : ℝ :=
  let dot := v1x * v2x + v1y * v2y
  let mag1 := Real.sqrt (v1x * v1x + v1y * v1y)
  let mag2 := Real.sqrt (v2x * v2x + v2y * v2y)
  if mag1 = 0 ∨ mag2 = 0 then 0
  else
    let cosAngle := dot / (mag1 * mag2)
    let clampedCos := max (-1) (min 1 cosAngle)
    let angle := Real.arccos clampedCos * (180 / Real.pi)
    max 0 (min 180 angle)

/-- `calculateTrunkAngle`: absolute deviation of the hip-to-shoulder vector
from vertical, clamped to `[0, 90]`. -/
noncomputable def calculateTrunkAngle (lm : List (Landmark ℝ)) : ℝ :=
  let leftHip := landmarkAt lm 23
  let leftShoulder := landmarkAt lm 11
  if ¬ isLandmarkVisible leftHip ∨ ¬ isLandmarkVisible leftShoulder then 0
  else
    let hx := leftShoulder.x - leftHip.x
    let hy := leftShoulder.y - leftHip.y
    let magnitude := Real.sqrt (hx * hx + hy * hy)
    if magnitude = 0 then 0
    else
      let ny := hy / magnitude
      let angle := Real.arccos (-ny) * (180 / Real.pi)
      min 90 (max 0 angle)

/-- `calculateHipAngle`: `180 - acute` between trunk (hip→shoulder) and thigh
(hip→knee) vectors. -/
noncomputable def calculateHipAngle (lm : List (Landmark ℝ)) : ℝ :=
  let leftHip := landmarkAt lm 23
  let leftKnee := landmarkAt lm 25
  let leftShoulder := landmarkAt lm 11
  if ¬ isLandmarkVisible leftHip ∨ ¬ isLandmarkVisible leftKnee ∨
      ¬ isLandmarkVisible leftShoulder then 0
  else
    180 - calculateAngleBetweenVectors
      (leftShoulder.x - leftHip.x) (leftShoulder.y - leftHip.y)
      (leftKnee.x - leftHip.x) (leftKnee.y - leftHip.y)

/-- `calculateKneeAngle`: `180 - acute` between thigh (hip→knee) and shin
(knee→ankle) vectors. -/
noncomputable def calculateKneeAngle (lm : List (Landmark ℝ)) : ℝ :=
  let leftHip := landmarkAt lm 23
  let leftKnee := landmarkAt lm 25
  let leftAnkle := landmarkAt lm 27
  if ¬ isLandmarkVisible leftHip ∨ ¬ isLandmarkVisible leftKnee ∨
      ¬ isLandmarkVisible leftAnkle then 0
  else
    180 - calculateAngleBetweenVectors
      (leftKnee.x - leftHip.x) (leftKnee.y - leftHip.y)
      (leftAnkle.x - leftKnee.x) (leftAnkle.y - leftKnee.y)

/-- `calculateShoulderAngle`: `180 - acute` between trunk (shoulder→hip) and
upper arm (shoulder→elbow) vectors. -/
noncomputable def calculateShoulderAngle (lm : List (Landmark ℝ)) : ℝ :=
  let leftShoulder := landmarkAt lm 11
  let leftElbow := landmarkAt lm 13
  let leftHip := landmarkAt lm 23
  if ¬ isLandmarkVisible leftShoulder ∨ ¬ isLandmarkVisible leftElbow ∨
      ¬ isLandmarkVisible leftHip then 0
  else
    180 - calculateAngleBetweenVectors
      (leftHip.x - leftShoulder.x) (leftHip.y - leftShoulder.y)
      (leftElbow.x - leftShoulder.x) (leftElbow.y - leftShoulder.y)

/-- `calculateElbowAngle`: `180 - acute` between upper arm (shoulder→elbow)
and forearm (elbow→wrist) vectors. -/
noncomputable def calculateElbowAngle (lm : List (Landmark ℝ)) : ℝ :=
  let leftShoulder := landmarkAt lm 11
  let leftElbow := landmarkAt lm 13
  let leftWrist := landmarkAt lm 15
  if ¬ isLandmarkVisible leftShoulder ∨ ¬ isLandmarkVisible leftElbow ∨
      ¬ isLandmarkVisible leftWrist then 0
  else
    180 - calculateAngleBetweenVectors
      (leftElbow.x - leftShoulder.x) (leftElbow.y - leftShoulder.y)
      (leftWrist.x - leftElbow.x) (leftWrist.y - leftElbow.y)

/-- `calculateAnkleAngle`: `180 - acute` between shin (knee→ankle) and foot
(ankle→foot-index) vectors. -/
noncomputable def calculateAnkleAngle (lm : List (Landmark ℝ)) : ℝ :=
  let leftKnee := landmarkAt lm 25
  let leftAnkle := landmarkAt lm 27
  let leftFoot := landmarkAt lm 31
  if ¬ isLandmarkVisible leftKnee ∨ ¬ isLandmarkVisible leftAnkle ∨
      ¬ isLandmarkVisible leftFoot then 0
  else
    180 - calculateAngleBetweenVectors
      (leftAnkle.x - leftKnee.x) (leftAnkle.y - leftKnee.y)
      (leftFoot.x - leftAnkle.x) (leftFoot.y - leftAnkle.y)

/-- The `rawAngles` object built in `calculateAngles` before smoothing. -/
noncomputable def rawAngles (lm : List (Landmark ℝ)) : JointAngles ℝ :=
  { trunkAngle := calculateTrunkAngle lm
    hipAngle := calculateHipAngle lm
    kneeAngle := calculateKneeAngle lm
    shoulderAngle := calculateShoulderAngle lm
    elbowAngle := calculateElbowAngle lm
    ankleAngle := calculateAnkleAngle lm }

end AngleGeometry

/-- `AngleCalculator.smoothAngle`: `previous * SMOOTHING_FACTOR + current *
(1 - SMOOTHING_FACTOR)` with `SMOOTHING_FACTOR = 0.8 = 4/5`. -/
def smoothAngle {α : Type} [LinearOrderedField α] (current previous : α) : α :=
  previous * (4 / 5) + current * (1 - 4 / 5)

/-- The smoothing half of `calculateAngles` (`angles.ts` lines 37-53): blend
with the previous frame's stored angles when present, otherwise pass the raw
angles through; either way store the returned value. The stored value is the
`lastAngles` field threaded explicitly as state. -/
def applySmoothing {α : Type} [LinearOrderedField α] (last : Option (JointAngles α))
    (raw : JointAngles α) : JointAngles α × Option (JointAngles α) :=
  match last with
  | none => (raw, some raw)
  | some p =>
    let s : JointAngles α :=
      { trunkAngle := smoothAngle raw.trunkAngle p.trunkAngle
        hipAngle := smoothAngle raw.hipAngle p.hipAngle
        kneeAngle := smoothAngle raw.kneeAngle p.kneeAngle
        shoulderAngle := smoothAngle raw.shoulderAngle p.shoulderAngle
        elbowAngle := smoothAngle raw.elbowAngle p.elbowAngle
        ankleAngle := smoothAngle raw.ankleAngle p.ankleAngle }
    (s, some s)

/-- `AngleCalculator.calculateAngles` from `angles.ts` lines 16-54: short
inputs return the zero sentinel without touching the stored angles; full
inputs compute raw geometry and run it through the smoothing filter. -/
noncomputable def calculateAngles (last : Option (JointAngles ℝ))
    (lm : List (Landmark ℝ)) : JointAngles ℝ × Option (JointAngles ℝ) :=
  if lm.length < 33 then (zeroAngles ℝ, last)
  else applySmoothing last (rawAngles lm)

/-! ## Theorems for the Angle Calculator -/

/-- An angle value within `[0, hi]` degrees. -/
def withinDegrees (x hi : ℝ) : Prop := 0 ≤ x ∧ x ≤ hi

/-- The range invariant of §3/§8: every angle in `[0,180]`, trunk additionally
in `[0,90]`. -/
def anglesInRange (a : JointAngles ℝ) : Prop :=
  withinDegrees a.trunkAngle 90 ∧ withinDegrees a.trunkAngle 180 ∧
  withinDegrees a.hipAngle 180 ∧ withinDegrees a.kneeAngle 180 ∧
  withinDegrees a.shoulderAngle 180 ∧ withinDegrees a.elbowAngle 180 ∧
  withinDegrees a.ankleAngle 180

theorem calculateAngleBetweenVectors_mem (v1x v1y v2x v2y : ℝ) :
    withinDegrees (calculateAngleBetweenVectors v1x v1y v2x v2y) 180 := by
  unfold calculateAngleBetweenVectors withinDegrees
  dsimp only
  split_ifs with h
  · norm_num
  · exact ⟨le_max_left 0 _, max_le (by norm_num) (min_le_left _ _)⟩

theorem calculateTrunkAngle_mem (lm : List (Landmark ℝ)) :
    withinDegrees (calculateTrunkAngle lm) 90 := by
  unfold calculateTrunkAngle withinDegrees
  dsimp only
  split_ifs with h h2
  · norm_num
  · norm_num
  · exact ⟨le_min (by norm_num) (le_max_left 0 _), min_le_left _ _⟩

theorem calculateHipAngle_mem (lm : List (Landmark ℝ)) :
    withinDegrees (calculateHipAngle lm) 180 := by
  unfold calculateHipAngle withinDegrees
  dsimp only
  split_ifs with h
  · norm_num
  · have h1 := calculateAngleBetweenVectors_mem
      ((landmarkAt lm 11).x - (landmarkAt lm 23).x) ((landmarkAt lm 11).y - (landmarkAt lm 23).y)
      ((landmarkAt lm 25).x - (landmarkAt lm 23).x) ((landmarkAt lm 25).y - (landmarkAt lm 23).y)
    unfold withinDegrees at h1
    constructor <;> linarith [h1.1, h1.2]

theorem calculateKneeAngle_mem (lm : List (Landmark ℝ)) :
    withinDegrees (calculateKneeAngle lm) 180 := by
  unfold calculateKneeAngle withinDegrees
  dsimp only
  split_ifs with h
  · norm_num
  · have h1 := calculateAngleBetweenVectors_mem
      ((landmarkAt lm 25).x - (landmarkAt lm 23).x) ((landmarkAt lm 25).y - (landmarkAt lm 23).y)
      ((landmarkAt lm 27).x - (landmarkAt lm 25).x) ((landmarkAt lm 27).y - (landmarkAt lm 25).y)
    unfold withinDegrees at h1
    constructor <;> linarith [h1.1, h1.2]

theorem calculateShoulderAngle_mem (lm : List (Landmark ℝ)) :
    withinDegrees (calculateShoulderAngle lm) 180 := by
  unfold calculateShoulderAngle withinDegrees
  dsimp only
  split_ifs with h
  · norm_num
  · have h1 := calculateAngleBetweenVectors_mem
      ((landmarkAt lm 23).x - (landmarkAt lm 11).x) ((landmarkAt lm 23).y - (landmarkAt lm 11).y)
      ((landmarkAt lm 13).x - (landmarkAt lm 11).x) ((landmarkAt lm 13).y - (landmarkAt lm 11).y)
    unfold withinDegrees at h1
    constructor <;> linarith [h1.1, h1.2]

theorem calculateElbowAngle_mem (lm : List (Landmark ℝ)) :
    withinDegrees (calculateElbowAngle lm) 180 := by
  unfold calculateElbowAngle withinDegrees
  dsimp only
  split_ifs with h
  · norm_num
  · have h1 := calculateAngleBetweenVectors_mem
      ((landmarkAt lm 13).x - (landmarkAt lm 11).x) ((landmarkAt lm 13).y - (landmarkAt lm 11).y)
      ((landmarkAt lm 15).x - (landmarkAt lm 13).x) ((landmarkAt lm 15).y - (landmarkAt lm 13).y)
    unfold withinDegrees at h1
    constructor <;> linarith [h1.1, h1.2]

theorem calculateAnkleAngle_mem (lm : List (Landmark ℝ)) :
    withinDegrees (calculateAnkleAngle lm) 180 := by
  unfold calculateAnkleAngle withinDegrees
  dsimp only
  split_ifs with h
  · norm_num
  · have h1 := calculateAngleBetweenVectors_mem
      ((landmarkAt lm 27).x - (landmarkAt lm 25).x) ((landmarkAt lm 27).y - (landmarkAt lm 25).y)
      ((landmarkAt lm 31).x - (landmarkAt lm 27).x) ((landmarkAt lm 31).y - (landmarkAt lm 27).y)
    unfold withinDegrees at h1
    constructor <;> linarith [h1.1, h1.2]

theorem rawAngles_inRange (lm : List (Landmark ℝ)) : anglesInRange (rawAngles lm) := by
  have ht := calculateTrunkAngle_mem lm
  have ht180 : withinDegrees (calculateTrunkAngle lm) 180 :=
    ⟨ht.1, le_trans ht.2 (by norm_num)⟩
  exact ⟨ht, ht180, calculateHipAngle_mem lm, calculateKneeAngle_mem lm,
    calculateShoulderAngle_mem lm, calculateElbowAngle_mem lm, calculateAnkleAngle_mem lm⟩

theorem smoothAngle_mem {B c p : ℝ} (hc : withinDegrees c B) (hp : withinDegrees p B) :
    withinDegrees (smoothAngle c p) B := by
  unfold withinDegrees smoothAngle at *
  constructor <;> nlinarith [hc.1, hc.2, hp.1, hp.2]

theorem applySmoothing_inRange {last : Option (JointAngles ℝ)} {raw : JointAngles ℝ}
    (hlast : ∀ p, last = some p → anglesInRange p) (hraw : anglesInRange raw) :
    anglesInRange (applySmoothing last raw).1 := by
  cases last with
  | none => simpa [applySmoothing] using hraw
  | some p =>
    have hp := hlast p rfl
    obtain ⟨hp1, hp2, hp3, hp4, hp5, hp6, hp7⟩ := hp
    obtain ⟨hr1, hr2, hr3, hr4, hr5, hr6, hr7⟩ := hraw
    exact ⟨smoothAngle_mem hr1 hp1, smoothAngle_mem hr2 hp2, smoothAngle_mem hr3 hp3,
      smoothAngle_mem hr4 hp4, smoothAngle_mem hr5 hp5, smoothAngle_mem hr6 hp6,
      smoothAngle_mem hr7 hp7⟩

/-- C9: for every landmark sequence of at least 33 entries and every smoothing
state whose stored angles are in range, every angle returned by
`calculateAngles` lies in `[0,180]` and the trunk angle lies in `[0,90]`. -/
theorem calculateAngles_output_in_range (last : Option (JointAngles ℝ))
    (lm : List (Landmark ℝ)) (hlen : 33 ≤ lm.length)
    (hlast : ∀ p, last = some p → anglesInRange p) :
    anglesInRange (calculateAngles last lm).1 := by
  unfold calculateAngles
  rw [if_neg (not_lt.mpr hlen)]
  exact applySmoothing_inRange hlast (rawAngles_inRange lm)

/-- Witness for C9: a 33-entry landmark list and the fresh (empty) smoothing
state. -/
theorem calculateAngles_output_in_range_witness :
    anglesInRange (calculateAngles none
      (List.replicate 33 { x := 0, y := 0, z := 0, visibility := none })).1 :=
  calculateAngles_output_in_range none _ (by simp)
    (fun p hp => Option.noConfusion hp)

/-- C8: for every landmark sequence with fewer than 33 entries, regardless of
the smoothing state, `calculateAngles` returns all six angles equal to 0. -/
theorem calculateAngles_short_input_zero (last : Option (JointAngles ℝ))
    (lm : List (Landmark ℝ)) (h : lm.length < 33) :
    (calculateAngles last lm).1 = zeroAngles ℝ := by
  unfold calculateAngles
  rw [if_pos h]

/-- Witness for C8: the empty landmark list against an arbitrary stored
state. -/
theorem calculateAngles_short_input_zero_witness :
    (calculateAngles (some (zeroAngles ℝ)) []).1 = zeroAngles ℝ :=
  calculateAngles_short_input_zero (some (zeroAngles ℝ)) [] (by simp)

/-- C10: a call with fewer than 33 landmarks leaves the smoothing memory
unchanged, so any later call behaves exactly as if the short call had never
happened (in particular a following full frame smooths against the last full
frame's angles, not against the zero sentinel). -/
theorem calculateAngles_short_input_keeps_memory (last : Option (JointAngles ℝ))
    (lm : List (Landmark ℝ)) (h : lm.length < 33) :
    (calculateAngles last lm).2 = last ∧
    ∀ lm2, calculateAngles (calculateAngles last lm).2 lm2 = calculateAngles last lm2 := by
  have hs : (calculateAngles last lm).2 = last := by
    unfold calculateAngles
    rw [if_pos h]
  exact ⟨hs, fun lm2 => by rw [hs]⟩

/-- Witness for C10: a short frame between two uses of a seeded smoothing
state. -/
theorem calculateAngles_short_input_keeps_memory_witness :
    (calculateAngles (some (zeroAngles ℝ)) []).2 = some (zeroAngles ℝ) ∧
    ∀ lm2, calculateAngles (calculateAngles (some (zeroAngles ℝ)) []).2 lm2 =
      calculateAngles (some (zeroAngles ℝ)) lm2 :=
  calculateAngles_short_input_keeps_memory (some (zeroAngles ℝ)) [] (by simp)

/-- The blend the specification describes for the second frame:
`0.8 * a0 + 0.2 * a1` on each joint. -/
def blendAngles {α : Type} [LinearOrderedField α] (a0 a1 : JointAngles α) : JointAngles α :=
  { trunkAngle := (4 / 5) * a0.trunkAngle + (1 / 5) * a1.trunkAngle
    hipAngle := (4 / 5) * a0.hipAngle + (1 / 5) * a1.hipAngle
    kneeAngle := (4 / 5) * a0.kneeAngle + (1 / 5) * a1.kneeAngle
    shoulderAngle := (4 / 5) * a0.shoulderAngle + (1 / 5) * a1.shoulderAngle
    elbowAngle := (4 / 5) * a0.elbowAngle + (1 / 5) * a1.elbowAngle
    ankleAngle := (4 / 5) * a0.ankleAngle + (1 / 5) * a1.ankleAngle }

theorem applySmoothing_blend {α : Type} [LinearOrderedField α] (p r : JointAngles α) :
    (applySmoothing (some p) r).1 = blendAngles p r := by
  unfold applySmoothing blendAngles smoothAngle
  simp only [JointAngles.mk.injEq]
  refine ⟨?_, ?_, ?_, ?_, ?_, ?_⟩ <;> (field_simp; ring)

/-- C7: on a fresh (unseeded) smoothing state, the first full-frame call
returns the raw angles `a0` unmodified (and stores them), and the second call
returns `0.8 * a0 + 0.2 * a1` for each of the six joint angles, where `a1` is
the second frame's raw angles. -/
theorem calculateAngles_first_two_frames (lm0 lm1 : List (Landmark ℝ))
    (h0 : 33 ≤ lm0.length) (h1 : 33 ≤ lm1.length) :
    (calculateAngles none lm0).1 = rawAngles lm0 ∧
    (calculateAngles none lm0).2 = some (rawAngles lm0) ∧
    (calculateAngles (calculateAngles none lm0).2 lm1).1 =
      blendAngles (rawAngles lm0) (rawAngles lm1) := by
  have e0 : calculateAngles none lm0 = (rawAngles lm0, some (rawAngles lm0)) := by
    unfold calculateAngles
    rw [if_neg (not_lt.mpr h0)]
    rfl
  refine ⟨by rw [e0], by rw [e0], ?_⟩
  rw [e0]
  unfold calculateAngles
  rw [if_neg (not_lt.mpr h1)]
  exact applySmoothing_blend (rawAngles lm0) (rawAngles lm1)

/-- Witness for C7: two 33-entry landmark frames on the fresh state. -/
theorem calculateAngles_first_two_frames_witness :
    (calculateAngles none
        (List.replicate 33 ({ x := 0, y := 0, z := 0, visibility := none } : Landmark ℝ))).1 =
      rawAngles (List.replicate 33 { x := 0, y := 0, z := 0, visibility := none }) ∧
    (calculateAngles none
        (List.replicate 33 ({ x := 0, y := 0, z := 0, visibility := none } : Landmark ℝ))).2 =
      some (rawAngles (List.replicate 33 { x := 0, y := 0, z := 0, visibility := none })) ∧
    (calculateAngles (calculateAngles none
        (List.replicate 33 ({ x := 0, y := 0, z := 0, visibility := none } : Landmark ℝ))).2
        (List.replicate 33 { x := 0, y := 0, z := 0, visibility := none })).1 =
      blendAngles (rawAngles (List.replicate 33 { x := 0, y := 0, z := 0, visibility := none }))
        (rawAngles (List.replicate 33 { x := 0, y := 0, z := 0, visibility := none })) :=
  calculateAngles_first_two_frames _ _ (by simp) (by simp)

/-- The smoothed angles a previous session's last frame left behind (the
static `lastAngles` field is process-wide and never reset). -/
def staleSessionAngles : JointAngles ℚ :=
  { trunkAngle := 100, hipAngle := 100, kneeAngle := 100,
    shoulderAngle := 100, elbowAngle := 100, ankleAngle := 100 }

/-- The raw angles of the first frame of a new session. -/
def newSessionRawAngles : JointAngles ℚ :=
  { trunkAngle := 50, hipAngle := 50, kneeAngle := 50,
    shoulderAngle := 50, elbowAngle := 50, ankleAngle := 50 }

/-- C2 (defect, §9): `AngleCalculator.lastAngles` is a `static` field shared
by every call in the process and no code path ever clears it, so the first
frame of a new session is smoothed against the previous session's last
angles instead of being returned raw: with stale angles 100° and a fresh raw
frame of 50°, the session's first output is `0.8·100 + 0.2·50 = 90`, not
`50`. -/
theorem smoothing_memory_not_session_scoped :
    (applySmoothing (some staleSessionAngles) newSessionRawAngles).1.hipAngle = 90 ∧
    (applySmoothing (some staleSessionAngles) newSessionRawAngles).1 ≠ newSessionRawAngles := by
  constructor
  · norm_num [applySmoothing, smoothAngle, staleSessionAngles, newSessionRawAngles]
  · intro hc
    have : (applySmoothing (some staleSessionAngles) newSessionRawAngles).1.hipAngle = 50 := by
      rw [hc]; rfl
    norm_num [applySmoothing, smoothAngle, staleSessionAngles, newSessionRawAngles] at this

/-! ## Theorems for the session feedback sink (C4) -/

theorem addFeedbackSession_of_dup {s : ExerciseSession} {m : String}
    {ty : FeedbackType} {p : ℤ} {r : Option ℤ}
    (hs : s.feedback.any (fun fb => feedbackDup fb m (targetRep r s.repCount)) = true) :
    addFeedbackSession m ty p r s = s := by
  unfold addFeedbackSession
  dsimp only
  rw [if_pos hs]

/-- C4: for an active session, submitting the same `(message, repNumber)` pair
twice stores exactly one entry (idempotence, and — provided the pair was not
already stored more than once — the stored count for the pair is exactly 1),
and each submission either leaves the stored feedback unchanged or appends a
single entry at the end, so stored entries appear in insertion order. -/
theorem addFeedback_dedup_insertion_order (s : ExerciseSession) (m : String)
    (ty : FeedbackType) (p : ℤ) (r : Option ℤ)
    (hone : s.feedback.countP (fun fb => feedbackDup fb m (targetRep r s.repCount)) ≤ 1) :
    addFeedbackSession m ty p r (addFeedbackSession m ty p r s) =
      addFeedbackSession m ty p r s ∧
    (addFeedbackSession m ty p r s).feedback.countP
      (fun fb => feedbackDup fb m (targetRep r s.repCount)) = 1 ∧
    ((addFeedbackSession m ty p r s).feedback = s.feedback ∨
      (addFeedbackSession m ty p r s).feedback = s.feedback ++
        [{ repNumber := targetRep r s.repCount, message := m, type := ty, priority := p }]) := by
  have hrep : (addFeedbackSession m ty p r s).repCount = s.repCount := by
    unfold addFeedbackSession
    dsimp only
    split_ifs <;> rfl
  by_cases h : s.feedback.any (fun fb => feedbackDup fb m (targetRep r s.repCount))
  · have he : addFeedbackSession m ty p r s = s := by
      unfold addFeedbackSession
      rw [if_pos h]
    have hpos : 0 < s.feedback.countP (fun fb => feedbackDup fb m (targetRep r s.repCount)) := by
      rw [List.countP_pos_iff]
      obtain ⟨fb, hmem, hfb⟩ := List.any_eq_true.mp h
      exact ⟨fb, hmem, hfb⟩
    refine ⟨by rw [he, he], ?_, Or.inl (by rw [he])⟩
    rw [he]
    omega
  · have he : (addFeedbackSession m ty p r s).feedback = s.feedback ++
        [{ repNumber := targetRep r s.repCount, message := m, type := ty, priority := p }] := by
      unfold addFeedbackSession
      rw [if_neg h]
    have hzero : s.feedback.countP (fun fb => feedbackDup fb m (targetRep r s.repCount)) = 0 := by
      rw [List.countP_eq_zero]
      intro fb hmem
      intro hfb
      exact h (List.any_eq_true.mpr ⟨fb, hmem, hfb⟩)
    have hnewdup : feedbackDup
        { repNumber := targetRep r s.repCount, message := m, type := ty, priority := p }
        m (targetRep r s.repCount) = true := by
      simp [feedbackDup]
    have hcount : (addFeedbackSession m ty p r s).feedback.countP
        (fun fb => feedbackDup fb m (targetRep r s.repCount)) = 1 := by
      rw [he, List.countP_append, hzero]
      simp [List.countP_cons, hnewdup]
    refine ⟨?_, hcount, Or.inr he⟩
    have hany2 : (addFeedbackSession m ty p r s).feedback.any
        (fun fb => feedbackDup fb m
          (targetRep r (addFeedbackSession m ty p r s).repCount)) = true := by
      rw [hrep, he]
      exact List.any_eq_true.mpr ⟨_, List.mem_append_right _ (List.mem_singleton_self _), hnewdup⟩
    exact addFeedbackSession_of_dup hany2

/-- Witness for C4: a fresh session (empty feedback list) receiving the same
warning twice for rep 3. -/
theorem addFeedback_dedup_insertion_order_witness :
    addFeedbackSession "Go deeper" FeedbackType.warning 1 (some 3)
        (addFeedbackSession "Go deeper" FeedbackType.warning 1 (some 3)
          { exercise := "squat", startTime := 0, endTime := none, repCount := 3,
            averageScore := 0, lastRepScore := 0, flags := [], feedback := [] }) =
      addFeedbackSession "Go deeper" FeedbackType.warning 1 (some 3)
        { exercise := "squat", startTime := 0, endTime := none, repCount := 3,
          averageScore := 0, lastRepScore := 0, flags := [], feedback := [] } ∧
    (addFeedbackSession "Go deeper" FeedbackType.warning 1 (some 3)
        { exercise := "squat", startTime := 0, endTime := none, repCount := 3,
          averageScore := 0, lastRepScore := 0, flags := [], feedback := [] }).feedback.countP
      (fun fb => feedbackDup fb "Go deeper" (targetRep (some 3) 3)) = 1 ∧
    ((addFeedbackSession "Go deeper" FeedbackType.warning 1 (some 3)
        { exercise := "squat", startTime := 0, endTime := none, repCount := 3,
          averageScore := 0, lastRepScore := 0, flags := [], feedback := [] }).feedback = [] ∨
      (addFeedbackSession "Go deeper" FeedbackType.warning 1 (some 3)
        { exercise := "squat", startTime := 0, endTime := none, repCount := 3,
          averageScore := 0, lastRepScore := 0, flags := [], feedback := [] }).feedback =
        [] ++ [{ repNumber := targetRep (some 3) 3, message := "Go deeper",
                 type := FeedbackType.warning, priority := 1 }]) :=
  addFeedback_dedup_insertion_order
    { exercise := "squat", startTime := 0, endTime := none, repCount := 3,
      averageScore := 0, lastRepScore := 0, flags := [], feedback := [] }
    "Go deeper" FeedbackType.warning 1 (some 3) (by decide)

/-! ## Rep Detector (`src/unnamed/part_000`, class `RepDetector`)

One instance per session; its mutable fields become a state record and each
method becomes a state transformer. `Date.now()` timestamps are passed in
explicitly (`now : ℤ`, milliseconds). Angle arithmetic is exact on `ℚ`. -/

/-- The exercise fixed at construction. -/
inductive Exercise where
  | squat
  | pullup
deriving DecidableEq, Repr

/-- The `RepState` enum. -/
inductive RepState where
  | idle
  | starting
  | peak
  | ending
  | complete
deriving DecidableEq, Repr

/-- The `RepDetection` result object returned by `update`. -/
structure RepDetection where
  state : RepState
  repCount : ℕ
  confidence : ℚ
  lastRepTime : ℤ
  averageTempo : ℚ
deriving DecidableEq, Repr

/-- The mutable fields of a `RepDetector` instance (plus the constructor
argument `exercise`). -/
structure RepDetector where
  exercise : Exercise
  currentState : RepState
  repCount : ℕ
  lastRepTime : ℤ
  repStartTime : ℤ
  repTimes : List ℤ
  lastAngles : Option (JointAngles ℚ)
  stateConfidence : ℚ
  consecutiveFrames : ℕ
  lastUpdateTime : ℤ
  isCalibrated : Bool
  standingHipAngle : ℚ
  standingKneeAngle : ℚ
  squatDepthHipAngle : ℚ
  calibrationFrames : ℕ
deriving DecidableEq, Repr

/-- `UPDATE_THROTTLE = 50` ms. -/
def UPDATE_THROTTLE : ℤ := 50

/-- `CALIBRATION_FRAMES_NEEDED = 25`. -/
def CALIBRATION_FRAMES_NEEDED : ℕ := 25

/-- `MIN_REP_DURATION = 1000` ms. -/
def MIN_REP_DURATION : ℤ := 1000

/-- `MAX_REP_DURATION = 20000` ms. -/
def MAX_REP_DURATION : ℤ := 20000

/-- `new RepDetector(exercise)`: every field at its declared initializer. -/
def mkRepDetector (exercise : Exercise) : RepDetector :=
  { exercise := exercise, currentState := RepState.idle, repCount := 0,
    lastRepTime := 0, repStartTime := 0, repTimes := [], lastAngles := none,
    stateConfidence := 0, consecutiveFrames := 0, lastUpdateTime := 0,
    isCalibrated := false, standingHipAngle := 0, standingKneeAngle := 0,
    squatDepthHipAngle := 0, calibrationFrames := 0 }

/-- `calculateAverageTempo`: mean of the stored rep durations, 0 when none. -/
def calculateAverageTempo (d : RepDetector) : ℚ :=
  if d.repTimes = [] then 0
  else ((d.repTimes.sum : ℤ) : ℚ) / (d.repTimes.length : ℚ)

/-- `getCurrentDetection`. -/
def getCurrentDetection (d : RepDetector) : RepDetection :=
  { state := d.currentState, repCount := d.repCount,
    confidence := d.stateConfidence, lastRepTime := d.lastRepTime,
    averageTempo := calculateAverageTempo d }

/-- `transitionTo`: no-op on a self-transition or within the 200 ms debounce
window; otherwise enters the new state, records the transition time, and
clears the consecutive-frame counter and the confidence. -/
def transitionTo (d : RepDetector) (newState : RepState) (timestamp : ℤ) : RepDetector :=
  if d.currentState = newState then d
  else if timestamp - d.lastRepTime < 200 then d
  else
    { d with currentState := newState, lastRepTime := timestamp,
             consecutiveFrames := 0, stateConfidence := 0 }

/-- `completeRep` from `part_000` lines 262-289: ignored when already
COMPLETE; when the duration since `repStartTime` lies in
`[MIN_REP_DURATION, MAX_REP_DURATION]` the rep is counted, its duration is
appended to the (10-bounded) tempo history and the state becomes COMPLETE;
otherwise nothing at all is changed (the invalid-duration branch only logs). -/
def completeRep (d : RepDetector) (timestamp : ℤ) : RepDetector :=
  if d.currentState = RepState.complete then d
  else
    let repDuration := timestamp - d.repStartTime
    if MIN_REP_DURATION ≤ repDuration ∧ repDuration ≤ MAX_REP_DURATION then
      let times0 := d.repTimes ++ [repDuration]
      let times1 := if 10 < times0.length then times0.tail else times0
      { d with repCount := d.repCount + 1, repTimes := times1,
               currentState := RepState.complete }
    else d

/-- `updateConfidence`: bump the consecutive-frame counter and set
`confidence = min(1, frames / 15)`. -/
def updateConfidence (d : RepDetector) : RepDetector :=
  { d with consecutiveFrames := d.consecutiveFrames + 1,
           stateConfidence := min 1 (((d.consecutiveFrames : ℚ) + 1) / 15) }

/-- `checkForStuckState`: force a completion attempt after more than 5000 ms
in a non-IDLE, non-COMPLETE state. -/
def checkForStuckState (d : RepDetector) (now : ℤ) : RepDetector :=
  if 5000 < now - d.lastRepTime ∧ d.currentState ≠ RepState.idle ∧
      d.currentState ≠ RepState.complete then
    completeRep d now
  else d

/-- `Math.abs` on a rational: `x < 0 ? -x : x`. -/
def absQ (x : ℚ) : ℚ := if x < 0 then -x else x

/-- `calibrate` from `part_000` lines 90-140: frame 0 records
`repStartTime := now`; frames 1-15 accumulate running means of standing hip
and knee angles; frames 16-25 update the squat-depth estimate
(`0.8·old + 0.2·observed`) whenever hip or knee moved more than 15° from the
standing mean; after 25 frames calibration completes, defaulting the squat
depth to `max(60, standingHip - 80)` when no movement was seen.
(`setDynamicThresholds` only logs and is omitted.) -/
def calibrate (d0 : RepDetector) (angles : JointAngles ℚ) (now : ℤ) : RepDetector :=
  let d1 := if d0.calibrationFrames = 0 then { d0 with repStartTime := now } else d0
  let d2 := { d1 with calibrationFrames := d1.calibrationFrames + 1 }
  let d3 :=
    if d2.calibrationFrames ≤ CALIBRATION_FRAMES_NEEDED then
      if d2.calibrationFrames ≤ 15 then
        { d2 with
            standingHipAngle :=
              (d2.standingHipAngle * ((d2.calibrationFrames : ℚ) - 1) + angles.hipAngle) /
                (d2.calibrationFrames : ℚ),
            standingKneeAngle :=
              (d2.standingKneeAngle * ((d2.calibrationFrames : ℚ) - 1) + angles.kneeAngle) /
                (d2.calibrationFrames : ℚ) }
      else
        if 15 < absQ (angles.hipAngle - d2.standingHipAngle) ∨
            15 < absQ (angles.kneeAngle - d2.standingKneeAngle) then
          { d2 with squatDepthHipAngle :=
              d2.squatDepthHipAngle * (4 / 5) + angles.hipAngle * (1 / 5) }
        else d2
    else d2
  if CALIBRATION_FRAMES_NEEDED ≤ d3.calibrationFrames then
    let d4 := { d3 with isCalibrated := true }
    if d4.squatDepthHipAngle = 0 then
      { d4 with squatDepthHipAngle := max 60 (d4.standingHipAngle - 80) }
    else d4
  else d3

/-- `updateSquatState` from `part_000` lines 150-236: the hysteresis state
machine over the dynamically calibrated thresholds. -/
def updateSquatState (d : RepDetector) (angles : JointAngles ℚ) (now : ℤ) : RepDetector :=
  if d.isCalibrated = false then d
  else
    let hipAngle := angles.hipAngle
    let kneeAngle := angles.kneeAngle
    let hipRange := d.standingHipAngle - d.squatDepthHipAngle
    let standingThreshold := d.standingHipAngle - hipRange * (2 / 10)
    let squatThreshold := d.squatDepthHipAngle + hipRange * (2 / 10)
    let midThreshold := (standingThreshold + squatThreshold) / 2
    let hipHysteresis : ℚ := 5
    let kneeHysteresis : ℚ := 8
    match d.currentState with
    | RepState.idle =>
      if hipAngle < standingThreshold ∨ kneeAngle < d.standingKneeAngle - kneeHysteresis then
        transitionTo d RepState.starting now
      else d
    | RepState.starting =>
      if hipAngle ≤ squatThreshold then transitionTo d RepState.peak now
      else if standingThreshold + hipHysteresis < hipAngle then
        transitionTo d RepState.idle now
      else d
    | RepState.peak =>
      if midThreshold < hipAngle then transitionTo d RepState.ending now else d
    | RepState.ending =>
      if standingThreshold < hipAngle ∨ d.standingKneeAngle - kneeHysteresis < kneeAngle then
        completeRep d now
      else if hipAngle ≤ squatThreshold then transitionTo d RepState.peak now
      else d
    | RepState.complete => transitionTo d RepState.idle now

/-- `updatePullupState`: an unimplemented stub that holds the current state. -/
def updatePullupState (d : RepDetector) (_angles : JointAngles ℚ)
    (_landmarks : List (Landmark ℚ)) (_now : ℤ) : RepDetector := d

/-- `update` from `part_000` lines 47-77: throttle, then calibrate until
done, then run the per-exercise state machine, the stuck-state safeguard and
the confidence update. Returns the `RepDetection` together with the new
detector state. -/
def update (d0 : RepDetector) (angles : JointAngles ℚ)
    (landmarks : List (Landmark ℚ)) (now : ℤ) : RepDetection × RepDetector :=
  if now - d0.lastUpdateTime < UPDATE_THROTTLE then
    (getCurrentDetection d0, d0)
  else
    let d1 := { d0 with lastUpdateTime := now }
    if d1.isCalibrated = false then
      let d2 := calibrate d1 angles now
      (getCurrentDetection d2, d2)
    else
      let d2 := if d1.exercise = Exercise.squat then updateSquatState d1 angles now
                else updatePullupState d1 angles landmarks now
      let d3 := checkForStuckState d2 now
      let d4 := updateConfidence d3
      (getCurrentDetection d4, d4)

/-- `reset` from `part_000` lines 314-332: restores every listed field to its
initial value. `lastUpdateTime` is not in the list and keeps its value. -/
def reset (d : RepDetector) : RepDetector :=
  { d with currentState := RepState.idle, repCount := 0, lastRepTime := 0,
           repStartTime := 0, repTimes := [], lastAngles := none,
           stateConfidence := 0, consecutiveFrames := 0, isCalibrated := false,
           standingHipAngle := 0, standingKneeAngle := 0,
           squatDepthHipAngle := 0, calibrationFrames := 0 }

/-- Feed a timed sequence of angle frames through `update`, collecting the
returned detections (landmarks play no role in the squat path and are passed
empty). -/
def runUpdates (d : RepDetector) (inputs : List (ℤ × JointAngles ℚ)) :
    List RepDetection × RepDetector :=
  match inputs with
  | [] => ([], d)
  | (t, a) :: rest =>
    let step := update d a [] t
    let restRun := runUpdates step.2 rest
    (step.1 :: restRun.1, restRun.2)

/-- Standing posture frame used for calibration: hip 170°, knee 175°. -/
def standingAngles : JointAngles ℚ :=
  { trunkAngle := 10, hipAngle := 170, kneeAngle := 175,
    shoulderAngle := 0, elbowAngle := 0, ankleAngle := 0 }

/-- A standing frame with the hip angle replaced. -/
def hipAt (h : ℚ) : JointAngles ℚ := { standingAngles with hipAngle := h }

/-- 25 standing calibration frames at 50 ms intervals starting at t = 1000 ms:
calibrates standing hip 170°, knee 175°, and (no movement seen) the default
squat depth `max(60, 170-80) = 90°`. -/
def calibrationInputs : List (ℤ × JointAngles ℚ) :=
  (List.range 25).map (fun i => ((1000 + 50 * i : ℤ), standingAngles))

/-- Calibration followed by one squat cycle: descent at 2260 ms, depth at
2460 ms, rise at 2660 ms, stand at 2710 ms. The STARTING phase begins at
2260 ms and the completion fires at 2710 ms — 450 ms later. -/
def shortCycleTrace : List (ℤ × JointAngles ℚ) :=
  calibrationInputs ++
    [(2260, hipAt 100), (2460, hipAt 100), (2660, hipAt 140), (2710, hipAt 160)]

/-! The Batteries `Rat` arithmetic definitions are `@[irreducible]`, which
blocks `decide` from evaluating concrete detector runs; restore default
reducibility locally on the theorems that evaluate traces. -/

set_option maxRecDepth 100000 in
attribute [local semireducible] Rat.add Rat.sub Rat.mul Rat.inv in
/-- C1 counterexample: after the 25-frame calibration (first update at
t = 1000 ms), the squat cycle STARTING (2260 ms) → PEAK (2460 ms) → ENDING
(2660 ms) → completion (2710 ms) spans only 450 ms measured from STARTING —
outside [1000 ms, 20000 ms] — yet the rep IS counted (`repCount = 1`),
because `completeRep` measures the duration from `repStartTime`, which is set
once at the first calibration frame and never at STARTING
(2710 - 1000 = 1710 ms, inside the window). -/
theorem repCount_incremented_despite_short_cycle :
    (runUpdates (mkRepDetector Exercise.squat)
      (calibrationInputs ++ [(2260, hipAt 100)])).2.currentState = RepState.starting ∧
    (runUpdates (mkRepDetector Exercise.squat)
      (calibrationInputs ++ [(2260, hipAt 100)])).2.lastRepTime = 2260 ∧
    (runUpdates (mkRepDetector Exercise.squat) shortCycleTrace).2.currentState =
      RepState.complete ∧
    (runUpdates (mkRepDetector Exercise.squat) shortCycleTrace).2.repCount = 1 ∧
    (runUpdates (mkRepDetector Exercise.squat) shortCycleTrace).2.repTimes = [1710] ∧
    ¬ (1000 ≤ (2710 : ℤ) - 2260 ∧ (2710 : ℤ) - 2260 ≤ 20000) := by
  decide

set_option maxRecDepth 100000 in
attribute [local semireducible] Rat.add Rat.sub Rat.mul Rat.inv in
/-- C6 counterexample: in the same run, the completing update (ENDING →
COMPLETE via `completeRep`) does not reset the confidence: the final state is
COMPLETE with `consecutiveFrames = 2` and `confidence = 2/15`, the counter
having been carried over from the ENDING phase (a reset on the transition
would leave at most `1/15` after the frame's confidence update). -/
theorem confidence_not_reset_on_completion :
    (runUpdates (mkRepDetector Exercise.squat) shortCycleTrace).2.currentState =
      RepState.complete ∧
    (runUpdates (mkRepDetector Exercise.squat) shortCycleTrace).2.consecutiveFrames = 2 ∧
    (runUpdates (mkRepDetector Exercise.squat) shortCycleTrace).2.stateConfidence = 2 / 15 ∧
    ¬ ((2 : ℚ) / 15 ≤ 1 / 15) := by
  decide

/-- One pre-reset update at t = 1000 ms, then this tail: a frame at 1010 ms
(inside the 50 ms throttle window of the pre-reset update) followed by 25
frames every 50 ms from 1060 ms. -/
def divergentTail : List (ℤ × JointAngles ℚ) :=
  (1010, standingAngles) :: (List.range 25).map (fun i => ((1060 + 50 * i : ℤ), standingAngles))

set_option maxRecDepth 100000 in
set_option maxHeartbeats 2000000 in
attribute [local semireducible] Rat.add Rat.sub Rat.mul Rat.inv in
/-- C5 counterexample: `reset` does not restore `lastUpdateTime`, so the
reset detector throttles the 1010 ms frame (10 ms after its pre-reset
update) while a freshly constructed detector processes it; the fresh
detector therefore finishes calibration one input earlier and the 26th
detection of the same input sequence differs: confidence 0 (reset detector,
still calibrating) versus 1/15 (fresh detector, first post-calibration
frame). -/
theorem reset_detector_diverges_from_fresh :
    ((runUpdates (reset (update (mkRepDetector Exercise.squat) standingAngles [] 1000).2)
        divergentTail).1.getD 25 (getCurrentDetection (mkRepDetector Exercise.squat))).confidence
      = 0 ∧
    ((runUpdates (mkRepDetector Exercise.squat) divergentTail).1.getD 25
        (getCurrentDetection (mkRepDetector Exercise.squat))).confidence = 1 / 15 ∧
    (0 : ℚ) ≠ 1 / 15 := by
  decide

/-! ## Structural lemmas about the detector's helpers -/

theorem transitionTo_spec (d : RepDetector) (ns : RepState) (t : ℤ) :
    transitionTo d ns t = d ∨
    (d.currentState ≠ ns ∧ 200 ≤ t - d.lastRepTime ∧
      transitionTo d ns t =
        { d with currentState := ns, lastRepTime := t,
                 consecutiveFrames := 0, stateConfidence := 0 }) := by
  unfold transitionTo
  split_ifs with hs hd
  · exact Or.inl rfl
  · exact Or.inl rfl
  · exact Or.inr ⟨hs, by omega, rfl⟩

theorem completeRep_invalid (d : RepDetector) (t : ℤ)
    (h : ¬ (MIN_REP_DURATION ≤ t - d.repStartTime ∧
            t - d.repStartTime ≤ MAX_REP_DURATION)) :
    completeRep d t = d := by
  unfold completeRep
  dsimp only
  split_ifs with h1 <;> rfl

theorem completeRep_spec (d : RepDetector) (t : ℤ) :
    completeRep d t = d ∨
    (d.currentState ≠ RepState.complete ∧
      MIN_REP_DURATION ≤ t - d.repStartTime ∧ t - d.repStartTime ≤ MAX_REP_DURATION ∧
      (completeRep d t).repCount = d.repCount + 1 ∧
      (completeRep d t).currentState = RepState.complete ∧
      (completeRep d t).repStartTime = d.repStartTime ∧
      (completeRep d t).lastRepTime = d.lastRepTime ∧
      (completeRep d t).consecutiveFrames = d.consecutiveFrames ∧
      (completeRep d t).stateConfidence = d.stateConfidence) := by
  unfold completeRep
  dsimp only
  split_ifs with h1 h2 h3
  · exact Or.inl rfl
  · exact Or.inr ⟨h1, h2.1, h2.2, rfl, rfl, rfl, rfl, rfl, rfl⟩
  · exact Or.inr ⟨h1, h2.1, h2.2, rfl, rfl, rfl, rfl, rfl, rfl⟩
  · exact Or.inl rfl

theorem calibrate_spec (d : RepDetector) (a : JointAngles ℚ) (now : ℤ) :
    (calibrate d a now).repCount = d.repCount ∧
    (calibrate d a now).currentState = d.currentState ∧
    (calibrate d a now).repStartTime =
      (if d.calibrationFrames = 0 then now else d.repStartTime) ∧
    (calibrate d a now).lastRepTime = d.lastRepTime ∧
    (calibrate d a now).consecutiveFrames = d.consecutiveFrames ∧
    (calibrate d a now).stateConfidence = d.stateConfidence := by
  unfold calibrate
  dsimp only
  split_ifs <;> exact ⟨rfl, rfl, rfl, rfl, rfl, rfl⟩

theorem updateConfidence_spec (e : RepDetector) :
    (updateConfidence e).stateConfidence =
      min 1 (((updateConfidence e).consecutiveFrames : ℚ) / 15) ∧
    (updateConfidence e).consecutiveFrames = e.consecutiveFrames + 1 ∧
    (updateConfidence e).currentState = e.currentState ∧
    (updateConfidence e).repCount = e.repCount ∧
    (updateConfidence e).repStartTime = e.repStartTime := by
  refine ⟨?_, rfl, rfl, rfl, rfl⟩
  unfold updateConfidence
  push_cast
  rfl

/-- Invariant relating a detector state `d` to the state `e` reached from it
inside one post-calibration update processed at time `now`: `repStartTime` is
untouched, the rep count grows by at most one, an increment certifies a
duration (measured from `repStartTime`) inside the validity window together
with the COMPLETE state, and with an invalid duration the step cannot newly
enter COMPLETE. -/
def StepOk (d e : RepDetector) (now : ℤ) : Prop :=
  e.repStartTime = d.repStartTime ∧
  (e.repCount = d.repCount ∨ e.repCount = d.repCount + 1) ∧
  (e.repCount = d.repCount + 1 →
    MIN_REP_DURATION ≤ now - d.repStartTime ∧
    now - d.repStartTime ≤ MAX_REP_DURATION ∧
    e.currentState = RepState.complete) ∧
  (¬ (MIN_REP_DURATION ≤ now - d.repStartTime ∧
      now - d.repStartTime ≤ MAX_REP_DURATION) →
    e.currentState = RepState.complete → d.currentState = RepState.complete)

theorem StepOk_refl (d : RepDetector) (now : ℤ) : StepOk d d now :=
  ⟨rfl, Or.inl rfl, fun h => absurd h (by omega), fun _ h => h⟩

theorem StepOk_transitionTo (d : RepDetector) (ns : RepState) (now t : ℤ)
    (hns : ns ≠ RepState.complete) : StepOk d (transitionTo d ns t) now := by
  rcases transitionTo_spec d ns t with h | ⟨hne, hdt, h⟩
  · rw [h]; exact StepOk_refl d now
  · rw [h]
    refine ⟨rfl, Or.inl rfl, ?_, ?_⟩
    · intro hc
      simp at hc
    · intro _ hc
      exact absurd hc hns

theorem StepOk_completeRep {d e : RepDetector} {now : ℤ} (hs : StepOk d e now) :
    StepOk d (completeRep e now) now := by
  obtain ⟨h1, h2, h3, h4⟩ := hs
  rcases completeRep_spec e now with h | ⟨hne, hmin, hmax, hrc, hcs, hrs, _, _, _⟩
  · rw [h]; exact ⟨h1, h2, h3, h4⟩
  · have hec : e.repCount = d.repCount := by
      rcases h2 with h2 | h2
      · exact h2
      · exact absurd (h3 h2).2.2 hne
    rw [h1] at hmin hmax
    refine ⟨by rw [hrs, h1], Or.inr (by rw [hrc, hec]), fun _ => ⟨hmin, hmax, hcs⟩, ?_⟩
    intro hw
    exact absurd ⟨hmin, hmax⟩ hw

theorem StepOk_checkForStuckState {d e : RepDetector} {now : ℤ} (hs : StepOk d e now) :
    StepOk d (checkForStuckState e now) now := by
  unfold checkForStuckState
  split_ifs with h
  · exact StepOk_completeRep hs
  · exact hs

theorem StepOk_updateConfidence {d e : RepDetector} {now : ℤ} (hs : StepOk d e now) :
    StepOk d (updateConfidence e) now := by
  obtain ⟨h1, h2, h3, h4⟩ := hs
  exact ⟨h1, h2, h3, h4⟩

theorem StepOk_updateSquatState (d : RepDetector) (a : JointAngles ℚ) (now : ℤ) :
    StepOk d (updateSquatState d a now) now := by
  unfold updateSquatState
  dsimp only
  by_cases h : d.isCalibrated = false
  · rw [if_pos h]
    exact StepOk_refl d now
  · rw [if_neg h]
    cases hc : d.currentState <;> dsimp only
    · split_ifs with h1
      · exact StepOk_transitionTo d RepState.starting now now (by decide)
      · exact StepOk_refl d now
    · split_ifs with h1 h2
      · exact StepOk_transitionTo d RepState.peak now now (by decide)
      · exact StepOk_transitionTo d RepState.idle now now (by decide)
      · exact StepOk_refl d now
    · split_ifs with h1
      · exact StepOk_transitionTo d RepState.ending now now (by decide)
      · exact StepOk_refl d now
    · split_ifs with h1 h2
      · exact StepOk_completeRep (StepOk_refl d now)
      · exact StepOk_transitionTo d RepState.peak now now (by decide)
      · exact StepOk_refl d now
    · exact StepOk_transitionTo d RepState.idle now now (by decide)

/-- C1 (amended): the rep-validity window is measured from `repStartTime`,
which is set once at the detector's first processed (calibration) update and
never when STARTING begins. One update increments `repCount` by at most one;
an increment certifies that `now - repStartTime` lies in
`[MIN_REP_DURATION, MAX_REP_DURATION]` and that the detector entered
COMPLETE; with a duration outside that window no transition to COMPLETE
happens at all (the detector stays in its current phase) and `repCount` is
not incremented. -/
theorem rep_window_measured_from_session_start (d : RepDetector)
    (a : JointAngles ℚ) (lm : List (Landmark ℚ)) (now : ℤ) :
    (((update d a lm now).2.repCount = d.repCount + 1) →
        MIN_REP_DURATION ≤ now - d.repStartTime ∧
        now - d.repStartTime ≤ MAX_REP_DURATION ∧
        (update d a lm now).2.currentState = RepState.complete) ∧
    ((update d a lm now).2.repCount = d.repCount ∨
      (update d a lm now).2.repCount = d.repCount + 1) ∧
    (¬ (MIN_REP_DURATION ≤ now - d.repStartTime ∧
        now - d.repStartTime ≤ MAX_REP_DURATION) →
      (update d a lm now).2.currentState = RepState.complete →
      d.currentState = RepState.complete) ∧
    ((update d a lm now).2.repStartTime =
      if d.isCalibrated = false ∧ ¬ (now - d.lastUpdateTime < UPDATE_THROTTLE) ∧
          d.calibrationFrames = 0
        then now else d.repStartTime) := by
  by_cases hthr : now - d.lastUpdateTime < UPDATE_THROTTLE
  · unfold update
    rw [if_pos hthr]
    dsimp only
    refine ⟨?_, Or.inl rfl, ?_, ?_⟩
    · intro hc
      simp at hc
    · intro _ hcs
      exact hcs
    · rw [if_neg]
      rintro ⟨-, h2, -⟩
      exact h2 hthr
  · by_cases hcal : d.isCalibrated = false
    · unfold update
      rw [if_neg hthr]
      dsimp only
      rw [if_pos hcal]
      dsimp only
      obtain ⟨c1, c2, c3, c4, c5, c6⟩ :=
        calibrate_spec { d with lastUpdateTime := now } a now
      refine ⟨?_, ?_, ?_, ?_⟩
      · intro hc
        rw [c1] at hc
        simp at hc
      · exact Or.inl c1
      · intro _ hcs
        rw [c2] at hcs
        exact hcs
      · rw [c3]
        by_cases hf : d.calibrationFrames = 0
        · rw [if_pos hf, if_pos ⟨hcal, hthr, hf⟩]
        · rw [if_neg hf, if_neg]
          rintro ⟨-, -, h3⟩
          exact hf h3
    · unfold update
      rw [if_neg hthr]
      dsimp only
      rw [if_neg hcal]
      have hs : StepOk { d with lastUpdateTime := now }
          (updateConfidence (checkForStuckState
            (if d.exercise = Exercise.squat
              then updateSquatState { d with lastUpdateTime := now } a now
              else updatePullupState { d with lastUpdateTime := now } a lm now) now)) now := by
        apply StepOk_updateConfidence
        apply StepOk_checkForStuckState
        split_ifs with he
        · exact StepOk_updateSquatState _ a now
        · exact StepOk_refl _ now
      obtain ⟨s1, s2, s3, s4⟩ := hs
      have hnc : ¬ (d.isCalibrated = false ∧
          ¬ now - d.lastUpdateTime < UPDATE_THROTTLE ∧ d.calibrationFrames = 0) := by
        rintro ⟨h1, -, -⟩
        exact hcal h1
      exact ⟨fun hc => s3 hc, s2, s4, by rw [if_neg hnc]; exact s1⟩

/-- A concrete calibrated detector in the ENDING phase (standing 170°/175°,
squat depth 90°, session started at t = 1000 ms, last transition at
2660 ms). -/
def dEnding : RepDetector :=
  { mkRepDetector Exercise.squat with
      currentState := RepState.ending, isCalibrated := true,
      standingHipAngle := 170, standingKneeAngle := 175,
      squatDepthHipAngle := 90, repStartTime := 1000,
      lastRepTime := 2660, lastUpdateTime := 2660, calibrationFrames := 25 }

set_option maxRecDepth 10000 in
attribute [local semireducible] Rat.add Rat.sub Rat.mul Rat.inv in
/-- Witness for C1 (amended): from `dEnding`, the update at 2710 ms with hip
160° completes the rep; the theorem's first conjunct then certifies the
duration window measured from `repStartTime = 1000` and the COMPLETE state. -/
theorem rep_window_measured_from_session_start_witness :
    MIN_REP_DURATION ≤ (2710 : ℤ) - dEnding.repStartTime ∧
    (2710 : ℤ) - dEnding.repStartTime ≤ MAX_REP_DURATION ∧
    (update dEnding (hipAt 160) [] 2710).2.currentState = RepState.complete :=
  (rep_window_measured_from_session_start dEnding (hipAt 160) [] 2710).1 (by decide)

/-- Invariant tracking the consecutive-frame counter through the state-machine
part of one post-calibration update: either nothing happened, or a
`transitionTo` transition fired (counter cleared, transition time recorded,
new state is not COMPLETE), or a `completeRep` completion fired (state newly
COMPLETE, counter untouched). -/
def ConfStepOk (d e : RepDetector) (now : ℤ) : Prop :=
  e = d ∨
  (e.currentState ≠ RepState.complete ∧ e.currentState ≠ d.currentState ∧
    e.consecutiveFrames = 0 ∧ e.lastRepTime = now) ∨
  (e.currentState = RepState.complete ∧ d.currentState ≠ RepState.complete ∧
    e.consecutiveFrames = d.consecutiveFrames)

theorem ConfStepOk_transitionTo (d : RepDetector) (ns : RepState) (now : ℤ)
    (hns : ns ≠ RepState.complete) : ConfStepOk d (transitionTo d ns now) now := by
  rcases transitionTo_spec d ns now with h | ⟨hne, hdt, h⟩
  · rw [h]; exact Or.inl rfl
  · rw [h]
    exact Or.inr (Or.inl ⟨hns, Ne.symm hne, rfl, rfl⟩)

theorem ConfStepOk_completeRep_base (d : RepDetector) (now : ℤ) :
    ConfStepOk d (completeRep d now) now := by
  rcases completeRep_spec d now with h | ⟨hne, _, _, _, hcs, _, _, hcf, _⟩
  · rw [h]; exact Or.inl rfl
  · exact Or.inr (Or.inr ⟨hcs, hne, hcf⟩)

theorem ConfStepOk_updateSquatState (d : RepDetector) (a : JointAngles ℚ) (now : ℤ) :
    ConfStepOk d (updateSquatState d a now) now := by
  unfold updateSquatState
  dsimp only
  by_cases h : d.isCalibrated = false
  · rw [if_pos h]
    exact Or.inl rfl
  · rw [if_neg h]
    cases hc : d.currentState <;> dsimp only
    · split_ifs with h1
      · exact ConfStepOk_transitionTo d RepState.starting now (by decide)
      · exact Or.inl rfl
    · split_ifs with h1 h2
      · exact ConfStepOk_transitionTo d RepState.peak now (by decide)
      · exact ConfStepOk_transitionTo d RepState.idle now (by decide)
      · exact Or.inl rfl
    · split_ifs with h1
      · exact ConfStepOk_transitionTo d RepState.ending now (by decide)
      · exact Or.inl rfl
    · split_ifs with h1 h2
      · exact ConfStepOk_completeRep_base d now
      · exact ConfStepOk_transitionTo d RepState.peak now (by decide)
      · exact Or.inl rfl
    · exact ConfStepOk_transitionTo d RepState.idle now (by decide)

theorem ConfStepOk_checkForStuckState {d e : RepDetector} {now : ℤ}
    (h : ConfStepOk d e now) : ConfStepOk d (checkForStuckState e now) now := by
  unfold checkForStuckState
  split_ifs with hst
  · rcases h with h | ⟨h1, h2, h3, h4⟩ | ⟨h1, h2, h3⟩
    · rw [h]
      exact ConfStepOk_completeRep_base d now
    · rw [h4] at hst
      exact absurd hst.1 (by omega)
    · exact absurd h1 hst.2.2
  · exact h

/-- C6 (amended): on every processed post-calibration update the confidence
equals `min(1, n/15)` where `n` is the consecutive-frame counter after the
update; the counter restarts at 1 on every transition into a non-COMPLETE
state (so those transitions reset confidence), but on the transition into
COMPLETE (`completeRep`) the counter is carried over from the previous phase
and merely incremented — confidence is NOT reset there. -/
theorem confidence_formula_and_reset (d : RepDetector) (a : JointAngles ℚ)
    (lm : List (Landmark ℚ)) (now : ℤ)
    (hcal : d.isCalibrated = true)
    (hthr : ¬ (now - d.lastUpdateTime < UPDATE_THROTTLE)) :
    (update d a lm now).2.stateConfidence =
      min 1 (((update d a lm now).2.consecutiveFrames : ℚ) / 15) ∧
    ((update d a lm now).2.currentState ≠ d.currentState →
      (update d a lm now).2.currentState ≠ RepState.complete →
      (update d a lm now).2.consecutiveFrames = 1) ∧
    ((update d a lm now).2.currentState = RepState.complete →
      d.currentState ≠ RepState.complete →
      (update d a lm now).2.consecutiveFrames = d.consecutiveFrames + 1) := by
  have hcal' : ¬ (d.isCalibrated = false) := by
    rw [hcal]
    exact fun hc => Bool.noConfusion hc
  unfold update
  rw [if_neg hthr]
  dsimp only
  rw [if_neg hcal']
  have hstep : ConfStepOk { d with lastUpdateTime := now }
      (checkForStuckState
        (if d.exercise = Exercise.squat
          then updateSquatState { d with lastUpdateTime := now } a now
          else updatePullupState { d with lastUpdateTime := now } a lm now) now) now := by
    apply ConfStepOk_checkForStuckState
    split_ifs with he
    · exact ConfStepOk_updateSquatState _ a now
    · exact Or.inl rfl
  refine ⟨(updateConfidence_spec _).1, ?_, ?_⟩
  · intro hne hnc
    rcases hstep with h | ⟨h1, h2, h3, h4⟩ | ⟨h1, h2, h3⟩
    · rw [h] at hne
      exact absurd rfl hne
    · rw [(updateConfidence_spec _).2.1, h3]
    · exact absurd h1 hnc
  · intro hc hdnc
    rcases hstep with h | ⟨h1, h2, h3, h4⟩ | ⟨h1, h2, h3⟩
    · rw [h] at hc
      exact absurd hc hdnc
    · exact absurd hc h1
    · rw [(updateConfidence_spec _).2.1, h3]

set_option maxRecDepth 10000 in
attribute [local semireducible] Rat.add Rat.sub Rat.mul Rat.inv in
/-- Witness for C6 (amended): the completing update from `dEnding` at 2710 ms
carries the consecutive-frame counter into COMPLETE instead of clearing it. -/
theorem confidence_formula_and_reset_witness :
    (update dEnding (hipAt 160) [] 2710).2.consecutiveFrames =
      dEnding.consecutiveFrames + 1 :=
  (confidence_formula_and_reset dEnding (hipAt 160) [] 2710 (by decide)
    (by decide)).2.2 (by decide) (by decide)

theorem runUpdates_cons (d : RepDetector) (t : ℤ) (a : JointAngles ℚ)
    (rest : List (ℤ × JointAngles ℚ)) :
    runUpdates d ((t, a) :: rest) =
      ((update d a [] t).1 :: (runUpdates (update d a [] t).2 rest).1,
        (runUpdates (update d a [] t).2 rest).2) := rfl

theorem update_ignores_stale_lastUpdateTime (d : RepDetector) (x y : ℤ)
    (a : JointAngles ℚ) (lm : List (Landmark ℚ)) (t : ℤ)
    (hx : ¬ t - x < UPDATE_THROTTLE) (hy : ¬ t - y < UPDATE_THROTTLE) :
    update { d with lastUpdateTime := x } a lm t =
    update { d with lastUpdateTime := y } a lm t := by
  unfold update
  rw [if_neg hx, if_neg hy]

/-- C5 (amended): `reset` restores every field to its constructor value
except `lastUpdateTime`, which keeps its pre-reset value — in particular the
detector is back to an uncalibrated IDLE state with `repCount = 0` — and any
subsequent update sequence whose first call comes at least `UPDATE_THROTTLE`
(50 ms) after the pre-reset `lastUpdateTime` produces exactly the detections
of a freshly constructed detector of the same exercise (without that gap the
first call can be throttled on the reset detector but processed by the fresh
one, and behaviour diverges). -/
theorem reset_matches_fresh_after_throttle_gap (d : RepDetector) (t0 : ℤ)
    (a0 : JointAngles ℚ) (rest : List (ℤ × JointAngles ℚ))
    (h1 : ¬ t0 - d.lastUpdateTime < UPDATE_THROTTLE)
    (h2 : ¬ t0 - (0 : ℤ) < UPDATE_THROTTLE) :
    reset d = { mkRepDetector d.exercise with lastUpdateTime := d.lastUpdateTime } ∧
    (reset d).currentState = RepState.idle ∧ (reset d).repCount = 0 ∧
    (reset d).isCalibrated = false ∧ (reset d).calibrationFrames = 0 ∧
    (reset d).repTimes = [] ∧ (reset d).stateConfidence = 0 ∧
    runUpdates (reset d) ((t0, a0) :: rest) =
      runUpdates (mkRepDetector d.exercise) ((t0, a0) :: rest) := by
  have hfull : reset d =
      { mkRepDetector d.exercise with lastUpdateTime := d.lastUpdateTime } := by
    rcases d with ⟨e, cs, rc, lrt, rst, rt, la, sc, cf, lut, ic, sh, sk, sq, cfr⟩
    rfl
  refine ⟨hfull, rfl, rfl, rfl, rfl, rfl, rfl, ?_⟩
  have hkey : update (reset d) a0 [] t0 = update (mkRepDetector d.exercise) a0 [] t0 := by
    rw [hfull]
    exact update_ignores_stale_lastUpdateTime (mkRepDetector d.exercise)
      d.lastUpdateTime 0 a0 [] t0 h1 h2
  rw [runUpdates_cons, runUpdates_cons, hkey]

/-- Witness for C5 (amended): a fresh squat detector, reset immediately, then
one update at t = 50 ms (exactly the throttle gap, since `lastUpdateTime`
is 0). -/
theorem reset_matches_fresh_after_throttle_gap_witness :
    reset (mkRepDetector Exercise.squat) =
      { mkRepDetector (mkRepDetector Exercise.squat).exercise with
          lastUpdateTime := (mkRepDetector Exercise.squat).lastUpdateTime } ∧
    (reset (mkRepDetector Exercise.squat)).currentState = RepState.idle ∧
    (reset (mkRepDetector Exercise.squat)).repCount = 0 ∧
    (reset (mkRepDetector Exercise.squat)).isCalibrated = false ∧
    (reset (mkRepDetector Exercise.squat)).calibrationFrames = 0 ∧
    (reset (mkRepDetector Exercise.squat)).repTimes = [] ∧
    (reset (mkRepDetector Exercise.squat)).stateConfidence = 0 ∧
    runUpdates (reset (mkRepDetector Exercise.squat)) [((50 : ℤ), standingAngles)] =
      runUpdates (mkRepDetector (mkRepDetector Exercise.squat).exercise)
        [((50 : ℤ), standingAngles)] :=
  reset_matches_fresh_after_throttle_gap (mkRepDetector Exercise.squat) 50
    standingAngles [] (by decide) (by decide)
